import Mathlib

/-!
Verification of the fileshare-project core against its specification.

The development shallowly embeds the Cloudflare Pages Functions backend
(`functions/api/[[path]].ts`, `functions/s/[[slug]].ts`, the root
`functions/[[path]].ts` with the admin surface) and the relevant fragment of
the React frontend (`frontend/src/App.jsx`).

Modelling conventions:
* D1 rows of the `files` table become `FileRecord`; the store is the list of
  rows.  `is_private` is kept as the 0/1 integer D1 stores (the handlers
  compare it with `=== 1`).
* JavaScript timestamps (`Date.now()`, `expiry_timestamp`) are integers
  (millisecond values are far below 2^53, so JS number arithmetic on them is
  exact).
* SHA-256 (`crypto.subtle.digest` wrapped by `hashPasscode`/`hashString`) is a
  platform primitive; handlers only compose and compare its hex digests, so it
  is carried as an explicit function parameter `hash : String → String`.
* JavaScript truthiness of the string-or-missing values the handlers test
  (`passcode`, `expiryDays`, `providedPasscode`) is made explicit: `none` and
  `some ""` are falsy, every other string is truthy.
-/

namespace FileShare

/-- Turns an optional string into `some s` exactly when JavaScript would treat
the value as truthy: `null`/`undefined` and the empty string are falsy, every
other string is truthy.  Mirrors the guards `if (passcode && ...)`,
`if (!providedPasscode)` and `if (expiryDays && ...)` in the handlers. -/
def truthyStr : Option String → Option String
  | none => none
  | some s => if s = "" then none else some s

/-- Row of the D1 `files` table (`functions/schema.sql`), the record persisted
by `POST /api/upload` and read by the retrieval handlers.  Field names follow
the schema columns. -/
structure FileRecord where
  id : String
  short_url_slug : String
  original_filename : String
  mime_type : String
  file_size : Int
  upload_timestamp : Int
  expiry_timestamp : Option Int
  passcode_hash : Option String
  is_private : Nat
deriving DecidableEq

/-- JavaScript whitespace accepted by `parseInt` before the number (the
common ASCII whitespace characters). -/
def isJsSpace (c : Char) : Bool :=
  c = ' ' || c = '\t' || c = '\n' || c = '\r' || c = Char.ofNat 11 || c = Char.ofNat 12

/-- Value of a decimal digit, `none` for any other character. -/
def decDigitVal (c : Char) : Option Nat :=
  if '0' ≤ c ∧ c ≤ '9' then some (c.toNat - '0'.toNat) else none

/-- Value of a hexadecimal digit, `none` for any other character. -/
def hexDigitVal (c : Char) : Option Nat :=
  if '0' ≤ c ∧ c ≤ '9' then some (c.toNat - '0'.toNat)
  else if 'a' ≤ c ∧ c ≤ 'f' then some (c.toNat - 'a'.toNat + 10)
  else if 'A' ≤ c ∧ c ≤ 'F' then some (c.toNat - 'A'.toNat + 10)
  else none

/-- Reads the longest leading run of digits (under the given digit reader) of
`cs` as a number in base `radix`; `none` when the run is empty. -/
def digitRunValue (dv : Char → Option Nat) (radix : Nat) (cs : List Char) : Option Nat :=
  let run := cs.takeWhile (fun c => (dv c).isSome)
  if run.isEmpty then none
  else some (run.foldl (fun acc c => acc * radix + ((dv c).getD 0)) 0)

/-- JavaScript `parseInt(s)` with no radix argument: skip leading whitespace,
read an optional sign, detect a `0x`/`0X` prefix (hexadecimal) and otherwise
parse the longest leading run of decimal digits; `none` models `NaN`.  In
particular `parseInt` truncates: `parseIntJS "7.5" = some 7`. -/
def parseIntJS (s : String) : Option Int :=
  let cs := s.toList.dropWhile isJsSpace
  let (neg, cs1) : Bool × List Char :=
    match cs with
    | '-' :: t => (true, t)
    | '+' :: t => (false, t)
    | _ => (false, cs)
  let val : Option Nat :=
    match cs1 with
    | '0' :: 'x' :: t => digitRunValue hexDigitVal 16 t
    | '0' :: 'X' :: t => digitRunValue hexDigitVal 16 t
    | _ => digitRunValue decDigitVal 10 cs1
  match val with
  | none => none
  | some n => some (if neg then -(n : Int) else (n : Int))

/-- Expiry computation of `POST /api/upload`
(`functions/api/[[path]].ts:106-110`):
`expiryTimestamp = Date.now() + parseInt(expiryDays)*24*60*60*1000` when
`expiryDays` is truthy, `parseInt(expiryDays)` is not `NaN` and is `> 0`;
otherwise the field stays `null`. -/
def computeExpiryTimestamp (now : Int) (expiryDays : Option String) : Option Int :=
  match truthyStr expiryDays with
  | none => none
  | some d =>
    match parseIntJS d with
    | none => none
    | some k => if k > 0 then some (now + k * 24 * 60 * 60 * 1000) else none

/-- Strict decimal-integer denotation of a string, following the
specification's words: the whole string (after an optional sign) must consist
of decimal digits for the field to denote an integer.  Used only to compare
the spec's phrase "denotes a positive integer" with the `parseInt`-based
behaviour of the source. -/
def denotesInteger (s : String) : Option Int :=
  let (neg, cs) : Bool × List Char :=
    match s.toList with
    | '-' :: t => (true, t)
    | '+' :: t => (false, t)
    | cs => (false, cs)
  if cs = [] then none
  else if cs.all (fun c => (decDigitVal c).isSome) then
    some (if neg then -((cs.foldl (fun acc c => acc * 10 + ((decDigitVal c).getD 0)) 0 : Nat) : Int)
          else ((cs.foldl (fun acc c => acc * 10 + ((decDigitVal c).getD 0)) 0 : Nat) : Int))
  else none

/-- Expiry guard of the retrieval handlers:
`if (fileMetadata.expiry_timestamp && Date.now() > fileMetadata.expiry_timestamp)`.
Note the JavaScript truthiness test on the number: a stored value of `0`
(falsy) skips the check, exactly like `null`. -/
def expiryActive (r : FileRecord) (now : Int) : Bool :=
  match r.expiry_timestamp with
  | none => false
  | some t => if t = 0 then false else decide (now > t)

/-- Outcome of the access gate on a stored record (the decision portion of
`GET /f/:slug`, `functions/api/[[path]].ts:163-201`).  `granted` means control
reaches the R2 fetch that streams the file bytes with status 200. -/
inductive Outcome where
  | expired
  | passcodeRequired
  | passcodeInvalid
  | granted
deriving DecidableEq

/-- Access decision of `GET /f/:slug` on the record found for the slug
(`functions/api/[[path]].ts:169-186`): expiry check first (410), then, for
`is_private === 1`, the passcode guard — missing/empty passcode gives 401,
a passcode whose hex digest differs from the stored `passcode_hash` gives
403 — and otherwise the file is served (200). -/
def evaluate (hash : String → String) (r : FileRecord) (now : Int)
    (providedPasscode : Option String) : Outcome :=
  if expiryActive r now then .expired
  else if r.is_private = 1 then
    match truthyStr providedPasscode with
    | none => .passcodeRequired
    | some p =>
      if (some (hash p) == r.passcode_hash) = false then .passcodeInvalid
      else .granted
  else .granted

/-- Reference decision function written from the specification's words
(§4.5 AccessGate): if `expiresAt` is set and `now > expiresAt` the result is
`Expired` with no further checks; otherwise a private record with no supplied
passcode gives `PasscodeRequired`; otherwise a private record whose supplied
passcode hashes to something different from the stored digest gives
`PasscodeInvalid`; otherwise `Granted`. -/
def evaluateRef (hash : String → String) (r : FileRecord) (now : Int)
    (providedPasscode : Option String) : Outcome :=
  let rest : Outcome :=
    if r.is_private = 1 then
      match providedPasscode with
      | none => .passcodeRequired
      | some p => if some (hash p) ≠ r.passcode_hash then .passcodeInvalid else .granted
    else .granted
  match r.expiry_timestamp with
  | some t => if now > t then .expired else rest
  | none => rest

/-- Metadata of the uploaded blob as seen by the upload handler
(the `file` entry of the multipart form: a `File` with `name`, `type`,
`size`). -/
structure FileInfo where
  name : String
  mimeType : String
  size : Int
deriving DecidableEq

/-- Fields the upload handler reads from the multipart form
(`functions/api/[[path]].ts:86-90`).  `file` is `none` when the entry is
missing or is a plain string; `isPrivateRaw` is the raw form value, compared
with the literal string `true` by the handler. -/
structure UploadForm where
  file : Option FileInfo
  passcode : Option String
  expiryDays : Option String
  isPrivateRaw : Option String
deriving DecidableEq

/-- JSON body answered by `POST /api/upload`: either the 400 no-file error or
the 200 success payload `{shortUrlSlug, originalFilename, isPrivate,
expiryTimestamp}`. -/
inductive UploadResponse where
  | noFile
  | success (shortUrlSlug originalFilename : String) (isPrivate : Bool) (expiryTimestamp : Option Int)
deriving DecidableEq

/-- The `POST /api/upload` handler (`functions/api/[[path]].ts:83-149`) given
the freshly generated `fileId` (uuid) and the slug returned by
`generateShortUrlSlug`.  It rejects only a missing file (400); it hashes the
passcode exactly when the form value is truthy, computes the expiry timestamp,
and appends the new row to the `files` store.  There is no validation tying
`isPrivate` to the presence of a passcode: a private upload without passcode
is persisted with `passcode_hash = null`. -/
def uploadHandler (hash : String → String) (now : Int) (fileId slug : String)
    (form : UploadForm) (store : List FileRecord) : UploadResponse × List FileRecord :=
  match form.file with
  | none => (.noFile, store)
  | some f =>
    let isPrivate : Bool := form.isPrivateRaw == some "true"
    let passcodeHash : Option String :=
      match truthyStr form.passcode with
      | some p => some (hash p)
      | none => none
    let expiryTimestamp : Option Int := computeExpiryTimestamp now form.expiryDays
    let r : FileRecord :=
      { id := fileId
        short_url_slug := slug
        original_filename := f.name
        mime_type := f.mimeType
        file_size := f.size
        upload_timestamp := now
        expiry_timestamp := expiryTimestamp
        passcode_hash := passcodeHash
        is_private := if isPrivate then 1 else 0 }
    (.success slug f.name isPrivate expiryTimestamp, store ++ [r])

/-- The slug alphabet of `generateShortUrlSlug`
(`functions/api/[[path]].ts:61`). -/
def characters : String :=
  "abcdefghijklmnopqrstuvwxyzABCDEFGHIJKLMNOPQRSTUVWXYZ0123456789"

/-- The slug alphabet as a list of characters (62 of them). -/
def charactersList : List Char := characters.toList

/-- Existence check of the generate-and-check loop: the D1 query
`SELECT id FROM files WHERE short_url_slug = ?` returns a non-empty result
exactly when some stored row carries the slug. -/
def slugExists (store : List FileRecord) (slug : String) : Bool :=
  store.any (fun r => r.short_url_slug == slug)

/-- One drawn slug: eight applications of
`characters.charAt(Math.floor(Math.random() * characters.length))`.  Each
`Math.random()` draw lands in `[0,1)`, so `Math.floor(r * 62)` is an index in
`Fin 62`; the sequence of draws is the function `draws`. -/
def slugFromDraws (draws : Nat → Fin 62) : String :=
  ⟨(List.range 8).map fun i => charactersList.get (Fin.cast (by decide) (draws i))⟩

/-- Shifts the random stream past the draws an attempt consumed. -/
def shiftDraws (k : Nat) (draws : Nat → Fin 62) : Nat → Fin 62 :=
  fun i => draws (i + k)

/-- The `while (true)` generate-and-check loop of `generateShortUrlSlug`
(`functions/api/[[path]].ts:59-79`), made total with an explicit fuel
parameter: each attempt draws an 8-character slug, queries the store, returns
the slug when free and otherwise retries on the shifted random stream.
`none` means the fuel ran out with every attempt colliding — the source loop
itself has no such exit and would still be running. -/
def generateShortUrlSlug (store : List FileRecord) : (Nat → Fin 62) → Nat → Option String
  | _, 0 => none
  | draws, n + 1 =>
    let slug := slugFromDraws draws
    if slugExists store slug then generateShortUrlSlug store (shiftDraws 8 draws) n
    else some slug

/-- The source loop never terminates on this store and random stream: no
amount of fuel makes the fueled loop return. -/
def slugLoopsForever (store : List FileRecord) (draws : Nat → Fin 62) : Prop :=
  ∀ n, generateShortUrlSlug store draws n = none

/-- Characters `encodeURIComponent` leaves unescaped:
letters, digits and `- _ . ! ~ * ' ( )`. -/
def isUriUnreserved (c : Char) : Bool :=
  c.isAlpha || c.isDigit || c = '-' || c = '_' || c = '.' || c = '!' ||
    c = '~' || c = '*' || c = Char.ofNat 39 || c = '(' || c = ')'

/-- Uppercase hexadecimal digit. -/
def hexChar (n : Nat) : Char :=
  if n < 10 then Char.ofNat ('0'.toNat + n) else Char.ofNat ('A'.toNat + n - 10)

/-- Percent-encoding of one byte. -/
def percentEncodeChar (c : Char) : List Char :=
  ['%', hexChar (c.toNat % 256 / 16), hexChar (c.toNat % 16)]

/-- `encodeURIComponent` restricted to ASCII inputs (every string the handlers
encode is ASCII). -/
def encodeURIComponentAscii (s : String) : String :=
  ⟨(s.toList.map fun c => if isUriUnreserved c then [c] else percentEncodeChar c).flatten⟩

/-- Characters the `URLSearchParams` serializer
(application/x-www-form-urlencoded) leaves unescaped. -/
def isFormUnreserved (c : Char) : Bool :=
  c.isAlpha || c.isDigit || c = '*' || c = '-' || c = '.' || c = '_'

/-- The `URLSearchParams` serialization of a value, restricted to ASCII:
space becomes `+`, unreserved characters stay, the rest are
percent-encoded. -/
def formUrlEncodeAscii (s : String) : String :=
  ⟨(s.toList.map fun c =>
      if isFormUnreserved c then [c] else if c = ' ' then ['+'] else percentEncodeChar c).flatten⟩

/-- Substring test: does `hay` contain `needle`? -/
def containsSub (needle hay : String) : Bool :=
  hay.toList.tails.any fun t => needle.toList.isPrefixOf t

/-- Response of the `GET /s/:slug` handler (`functions/s/[[slug]].ts`): the
302 redirect to the ad interstitial (the frontend route with `showAd=true`
and the original URL in `downloadUrl`), a 302 redirect to the frontend with
an `error` message, a 302 redirect to the passcode prompt
(`/?slug=...&promptDownload=true&message=...`), or the 200 file stream. -/
inductive SResponse where
  | adRedirect (origin downloadUrl : String)
  | homeError (msg : String)
  | promptRedirect (slug msg : String)
  | fileStream (key filename mime : String) (size : Int)
deriving DecidableEq

/-- The `GET /s/:slug` handler (`functions/s/[[slug]].ts:33-135`).  A request
whose `ad` query parameter is not exactly `seen` is redirected to the
interstitial before any store access; with `ad=seen` the handler looks the
slug up, applies the expiry and passcode gates (redirecting passcode failures
to the prompt — note the redirect carries only `slug`, `promptDownload` and
`message`), and streams the R2 object.  `r2has` tells whether the object
store holds a key.  `sSlugAfterAd` is the part after the ad interception
early-return. -/
def sSlugAfterAd (hash : String → String) (r2has : String → Bool) (store : List FileRecord)
    (now : Int) (slug : String) (providedPasscode : Option String) : SResponse :=
  match store.find? (fun r => r.short_url_slug == slug) with
  | none => .homeError "File not found or has been removed."
  | some r =>
    let key := "files/" ++ r.id ++ "-" ++ r.original_filename
    let serve : SResponse :=
      if r2has key then .fileStream key r.original_filename r.mime_type r.file_size
      else .homeError "File content not found in storage."
    if expiryActive r now then
      .homeError "This file has expired and is no longer available."
    else if r.is_private = 1 then
      match truthyStr providedPasscode with
      | none => .promptRedirect slug "This file is private. Please enter the passcode to download."
      | some p =>
        if (some (hash p) == r.passcode_hash) = false then
          .promptRedirect slug "Invalid passcode provided."
        else serve
    else serve

/-- The full `GET /s/:slug` handler: the ad interception comes first —
`const adSeen = c.req.query('ad') === 'seen'`, and when the flag is absent the
handler redirects to the interstitial (`/?showAd=true&downloadUrl=<request
URL>`) before any database access — otherwise the download logic
`sSlugAfterAd` runs. -/
def sSlugHandler (hash : String → String) (r2has : String → Bool) (store : List FileRecord)
    (now : Int) (origin reqUrl slug : String) (providedPasscode adParam : Option String) :
    SResponse :=
  let adSeen : Bool := adParam == some "seen"
  if adSeen = false then .adRedirect origin reqUrl
  else sSlugAfterAd hash r2has store now slug providedPasscode

/-- The `Location` value of each 302 response of the `/s/:slug` handler, read
off the template literals of the source (`encodeURIComponent` on the message,
the `URLSearchParams` serializer on the ad-screen `downloadUrl`).  The file
stream is not a redirect and gets the empty string. -/
def redirectLocation : SResponse → String
  | .adRedirect origin downloadUrl =>
      origin ++ "/?showAd=true&downloadUrl=" ++ formUrlEncodeAscii downloadUrl
  | .homeError msg => "/?error=" ++ encodeURIComponentAscii msg
  | .promptRedirect slug msg =>
      "/?slug=" ++ slug ++ "&promptDownload=true&message=" ++ encodeURIComponentAscii msg
  | .fileStream _ _ _ _ => ""

/-- URL the frontend requests when the user submits the download form
(`App.jsx:272-277`): the short link, with the passcode appended as a query
parameter when the field is non-empty.  No `ad=seen` marker is added. -/
def handleDownloadUrl (slug passcode : String) : String :=
  let base := "https://file.myozarniaung.com/s/" ++ slug
  if passcode = "" then base else base ++ "?passcode=" ++ encodeURIComponentAscii passcode

/-- Decoded payload of an admin session token
(`generateToken`, `functions/[[path]].ts` root variant). -/
structure TokenPayload where
  userId : String
  username : String
  role : String
  exp : Int
deriving DecidableEq

/-- JavaScript `str.split('.')` on the character list: the maximal runs of
characters between the dots (empty runs included, as in JavaScript). -/
def splitDotChars : List Char → List (List Char)
  | [] => [[]]
  | '.' :: t => [] :: splitDotChars t
  | c :: t =>
    match splitDotChars t with
    | [] => [[c]]
    | h :: r => (c :: h) :: r

/-- JavaScript `token.split('.')`. -/
def splitDot (s : String) : List String :=
  (splitDotChars s.toList).map fun l => ⟨l⟩

/-- The `verifyToken` function (`src/unnamed/part_001:313-354`): split the
token on `.`; unless exactly three parts result, fail; verify the HMAC-SHA-256
signature of `header.payload` under the service key; decode the payload
(`JSON.parse(atob(...))`, whose failure is caught and returned as `null`);
reject when `payload.exp < Date.now()`; otherwise return the payload.

The platform HMAC is carried as the parameter `mac` (key and message to
signature, as the base64 text that ends up as the token's third part), and the
base64+JSON payload decoding as `decodePayload`; a signature string that fails
to decode or to verify is exactly one that differs from
`mac key (header ++ "." ++ payload)`. -/
def verifyToken (mac : String → String → String)
    (decodePayload : String → Option TokenPayload)
    (secretKey : String) (now : Int) (token : String) : Option TokenPayload :=
  match splitDot token with
  | [h, p, s] =>
    if s == mac secretKey (h ++ "." ++ p) then
      match decodePayload p with
      | some payload => if payload.exp < now then none else some payload
      | none => none
    else none
  | _ => none

/-- Status answered by `PUT /api/admin/files/:id`: 400 when the body carries
no `is_private` field, 200 on the `success` branch, 404 on the branch guarded
by `success` being falsy. -/
inductive AdminUpdateResult where
  | badRequest
  | updated
  | notFoundErr
deriving DecidableEq

/-- The `PUT /api/admin/files/:id` handler (`src/unnamed/part_001:445-468`).
It runs `UPDATE files SET is_private = ? WHERE id = ?` and branches on the
`success` field of the D1 result.  D1's `run()` resolves with
`success = true` whenever the statement executes without error — also when
zero rows match the `WHERE` clause — so the 404 branch (`notFoundErr`) is
unreachable and a missing id is answered 200 with the store unchanged. -/
def adminUpdateFile (store : List FileRecord) (fileId : String)
    (isPrivateField : Option Bool) : AdminUpdateResult × List FileRecord :=
  match isPrivateField with
  | none => (.badRequest, store)
  | some b =>
    (.updated,
     store.map fun r =>
       if r.id == fileId then { r with is_private := if b then 1 else 0 } else r)

/-- Concrete stand-in for the SHA-256 hex digest in closed evaluations. -/
def demoHash : String → String := fun s => "h" ++ s

/-- Concrete random stream that always draws index 0 (the character `a`). -/
def constDraws : Nat → Fin 62 := fun _ => ⟨0, by decide⟩

/-- Concrete stored record: a private file whose stored digest is the
`demoHash` image of the passcode `pw`. -/
def recPriv : FileRecord :=
  { id := "id1", short_url_slug := "abc12345", original_filename := "doc.txt",
    mime_type := "text/plain", file_size := 10, upload_timestamp := 0,
    expiry_timestamp := none, passcode_hash := some "hpw", is_private := 1 }

/-- Concrete stored record: private with a null passcode digest (the state the
upload path persists for a private upload without passcode). -/
def recNoPass : FileRecord :=
  { id := "id2", short_url_slug := "qrstuvwx", original_filename := "sec.txt",
    mime_type := "text/plain", file_size := 4, upload_timestamp := 0,
    expiry_timestamp := none, passcode_hash := none, is_private := 1 }

/-- Concrete stored record occupying the slug `aaaaaaaa`. -/
def recSlugA : FileRecord :=
  { id := "id3", short_url_slug := "aaaaaaaa", original_filename := "x.bin",
    mime_type := "application/octet-stream", file_size := 1, upload_timestamp := 0,
    expiry_timestamp := none, passcode_hash := none, is_private := 0 }

/-- Concrete MAC for closed evaluations of `verifyToken` (its outputs contain
no dot, so the token keeps its three-part structure). -/
def macDemo : String → String → String := fun k _ => k ++ "g"

/-- Concrete payload decoder for closed evaluations of `verifyToken`. -/
def decodeDemo : String → Option TokenPayload :=
  fun p => if p = "p" then some ⟨"u", "n", "admin", 100⟩ else none

/-! ## Theorems -/

/-- Every drawn slug has exactly 8 characters. -/
theorem slugFromDraws_length (draws : Nat → Fin 62) : (slugFromDraws draws).length = 8 := by
  simp [slugFromDraws, String.length]

/-- Every character of a drawn slug comes from the declared alphabet. -/
theorem slugFromDraws_chars (draws : Nat → Fin 62) :
    ∀ c ∈ (slugFromDraws draws).data, c ∈ charactersList := by
  intro c hc
  simp only [slugFromDraws, List.mem_map] at hc
  obtain ⟨i, -, rfl⟩ := hc
  exact List.get_mem _ _ _

/-- When the fueled generate-and-check loop returns a slug, that slug is a
draw and the store holds no record with it. -/
theorem generateShortUrlSlug_some (store : List FileRecord) :
    ∀ (n : Nat) (draws : Nat → Fin 62) (s : String),
      generateShortUrlSlug store draws n = some s →
      slugExists store s = false ∧ ∃ d, s = slugFromDraws d := by
  intro n
  induction n with
  | zero => intro draws s h; cases h
  | succ n ih =>
    intro draws s h
    unfold generateShortUrlSlug at h
    by_cases hex : slugExists store (slugFromDraws draws) = true
    · rw [if_pos hex] at h
      exact ih _ _ h
    · rw [if_neg hex] at h
      cases h
      exact ⟨Bool.not_eq_true _ ▸ Bool.of_not_eq_true hex, draws, rfl⟩

/-- When every attempted draw collides with a stored slug, the loop makes no
progress: no fuel bound suffices for it to return. -/
theorem generateShortUrlSlug_all_collide (store : List FileRecord) :
    ∀ (n : Nat) (draws : Nat → Fin 62),
      (∀ k, slugExists store (slugFromDraws (shiftDraws (8 * k) draws)) = true) →
      generateShortUrlSlug store draws n = none := by
  intro n
  induction n with
  | zero => intro draws _; rfl
  | succ n ih =>
    intro draws hall
    have h0 : slugExists store (slugFromDraws draws) = true := hall 0
    show (if slugExists store (slugFromDraws draws) = true then
            generateShortUrlSlug store (shiftDraws 8 draws) n
          else some (slugFromDraws draws)) = none
    rw [if_pos h0]
    apply ih
    intro k
    have he : shiftDraws (8 * k) (shiftDraws 8 draws) = shiftDraws (8 * (k + 1)) draws := by
      funext i
      show draws (i + 8 * k + 8) = draws (i + 8 * (k + 1))
      exact congrArg draws (by omega)
    rw [he]
    exact hall (k + 1)

/-- C6: every slug `generateShortUrlSlug` returns has length exactly 8, uses
only characters of the declared alphanumeric alphabet, and is absent from
the store at the moment of return; consequently a second allocation against
a store that still holds a record with the first slug never returns that
slug again. -/
theorem slug_allocation_correct (store : List FileRecord) (draws : Nat → Fin 62)
    (n : Nat) (s : String) (h : generateShortUrlSlug store draws n = some s) :
    s.length = 8
    ∧ (∀ c ∈ s.data, c ∈ charactersList)
    ∧ slugExists store s = false
    ∧ ∀ (store2 : List FileRecord) (r : FileRecord), r ∈ store2 → r.short_url_slug = s →
        ∀ (draws2 : Nat → Fin 62) (m : Nat) (s2 : String),
          generateShortUrlSlug store2 draws2 m = some s2 → s2 ≠ s := by
  obtain ⟨hex, d, rfl⟩ := generateShortUrlSlug_some store n draws s h
  refine ⟨slugFromDraws_length d, slugFromDraws_chars d, hex, ?_⟩
  intro store2 r hr hslug draws2 m s2 h2 heq
  subst heq
  have hex2 := (generateShortUrlSlug_some store2 m draws2 _ h2).1
  have : slugExists store2 (slugFromDraws d) = true :=
    List.any_eq_true.mpr ⟨r, hr, by simp [hslug]⟩
  simp [this] at hex2

/-- Closed instance of `slug_allocation_correct`: on the empty store the
constant draw stream yields `aaaaaaaa` in one attempt, and the conclusions
evaluate as stated. -/
theorem slug_allocation_correct_witness :
    "aaaaaaaa".length = 8 ∧ slugExists [] "aaaaaaaa" = false :=
  ⟨(slug_allocation_correct [] constDraws 1 "aaaaaaaa" (by decide)).1,
   (slug_allocation_correct [] constDraws 1 "aaaaaaaa" (by decide)).2.2.1⟩

/-- C7 counterexample: on a store holding the slug `aaaaaaaa` and a random
stream that always draws `aaaaaaaa`, the generate-and-check loop never
returns — there is no bounded retry budget and no `SlugExhausted` failure:
the claimed termination on every store state is false. -/
theorem slug_allocator_counterexample : slugLoopsForever [recSlugA] constDraws := by
  intro n
  induction n with
  | zero => rfl
  | succ n ih =>
    unfold generateShortUrlSlug
    rw [if_pos (by decide)]
    exact ih

/-- C7 (amended): whenever the loop returns, the slug is free in the store;
but the source enforces no retry budget — on a store state where every drawn
slug collides with a stored record, the loop returns for no fuel bound
(it would run forever), instead of failing after a fixed number of
attempts. -/
theorem slug_allocator_no_retry_budget :
    (∀ (store : List FileRecord) (draws : Nat → Fin 62) (n : Nat) (s : String),
        generateShortUrlSlug store draws n = some s → slugExists store s = false)
    ∧ ∀ (store : List FileRecord) (draws : Nat → Fin 62),
        (∀ k, slugExists store (slugFromDraws (shiftDraws (8 * k) draws)) = true) →
        ∀ n, generateShortUrlSlug store draws n = none :=
  ⟨fun store draws n s h => (generateShortUrlSlug_some store n draws s h).1,
   fun store draws hall n => generateShortUrlSlug_all_collide store n draws hall⟩

/-- Closed instance of `slug_allocator_no_retry_budget` at concrete inputs. -/
theorem slug_allocator_no_retry_budget_witness :
    slugExists [] "aaaaaaaa" = false
    ∧ generateShortUrlSlug [recSlugA] constDraws 20 = none :=
  ⟨slug_allocator_no_retry_budget.1 [] constDraws 1 "aaaaaaaa" (by decide),
   slug_allocator_no_retry_budget.2 [recSlugA] constDraws
     (fun _ => (by decide : slugExists [recSlugA] (slugFromDraws constDraws) = true)) 20⟩

/-- C8 counterexample: the form value `7.5` does not denote an integer, so
the claim requires `expiresAt = null`; but `parseInt` truncates it to `7` and
the handler stores `now + 7*86400000`. -/
theorem upload_expiry_counterexample :
    denotesInteger "7.5" = none
    ∧ parseIntJS "7.5" = some 7
    ∧ computeExpiryTimestamp 0 (some "7.5") = some 604800000 := by decide

/-- C8 (amended): when `expiryDays` is present, non-empty, and
`parseInt(expiryDays)` yields a positive `k` — `parseInt` reads the longest
leading integer prefix, so `7.5` yields `7` — the stored `expiresAt` is
exactly `now + k*86400000`; when the field is absent, empty, unparsable, or
yields `k ≤ 0`, `expiresAt` is null. -/
theorem upload_expiry_computation (now : Int) (d : Option String) :
    (∀ s k, d = some s → s ≠ "" → parseIntJS s = some k → 0 < k →
        computeExpiryTimestamp now d = some (now + k * 86400000))
    ∧ (d = none → computeExpiryTimestamp now d = none)
    ∧ (∀ s, d = some s →
        (s = "" ∨ parseIntJS s = none ∨ ∃ k, parseIntJS s = some k ∧ k ≤ 0) →
        computeExpiryTimestamp now d = none) := by
  refine ⟨?_, ?_, ?_⟩
  · rintro s k rfl hs hk hpos
    have harith : k * 24 * 60 * 60 * 1000 = k * 86400000 := by ring
    simp [computeExpiryTimestamp, truthyStr, hs, hk, hpos, harith]
  · rintro rfl
    rfl
  · rintro s rfl hcase
    rcases hcase with rfl | hnone | ⟨k, hk, hle⟩
    · rfl
    · by_cases hs : s = "" <;> simp [computeExpiryTimestamp, truthyStr, hs, hnone]
    · by_cases hs : s = "" <;>
        simp [computeExpiryTimestamp, truthyStr, hs, hk, not_lt.mpr hle, Int.not_lt.mpr hle]

/-- Closed instance of `upload_expiry_computation` at concrete inputs. -/
theorem upload_expiry_computation_witness :
    computeExpiryTimestamp 100 (some "7") = some (100 + 7 * 86400000)
    ∧ computeExpiryTimestamp 100 none = none
    ∧ computeExpiryTimestamp 100 (some "0") = none :=
  ⟨(upload_expiry_computation 100 (some "7")).1 "7" 7 rfl (by decide) (by decide) (by decide),
   (upload_expiry_computation 100 none).2.1 rfl,
   (upload_expiry_computation 100 (some "0")).2.2 "0" rfl
     (Or.inr (Or.inr ⟨0, by decide, by decide⟩))⟩

/-- C1: evaluation of the upload handler on a private upload carrying no
passcode.  The claim says this request fails with a 400 `ValidationError` and
persists nothing; the handler instead answers success and appends a record
with `is_private = 1` and `passcode_hash = null`. -/
theorem upload_private_without_passcode_persists :
    uploadHandler demoHash 0 "id1" "slug1"
      { file := some { name := "a.txt", mimeType := "text/plain", size := 3 },
        passcode := none, expiryDays := none, isPrivateRaw := some "true" } []
    = (.success "slug1" "a.txt" true none,
       [{ id := "id1", short_url_slug := "slug1", original_filename := "a.txt",
          mime_type := "text/plain", file_size := 3, upload_timestamp := 0,
          expiry_timestamp := none, passcode_hash := none, is_private := 1 }]) := by
  decide

/-- C9: evaluation of the admin update handler.  On an id with no stored
record the claim says 404 and an unchanged store; because D1's `run()`
reports `success = true` even when zero rows match, the handler answers 200
(`File updated successfully`) — the store is indeed unchanged.  On a stored
id, only that record's `is_private` field changes. -/
theorem admin_update_missing_id_reports_success :
    adminUpdateFile [] "missing-id" (some true) = (.updated, [])
    ∧ adminUpdateFile [recPriv, recSlugA] "id3" (some true)
        = (.updated, [recPriv, { recSlugA with is_private := 1 }])
    ∧ adminUpdateFile [recPriv, recSlugA] "no-such-id" (some false)
        = (.updated, [recPriv, recSlugA]) := by
  decide

/-- C10: a stored record with `is_private = 1` and a null `passcode_hash`
(the state the upload path persists for a private upload without passcode)
can never be granted: the digest of any supplied passcode is a `some` hex
string and never equals the stored `null`, so retrieval answers 401 with no
passcode and 403 with any passcode — the record is inaccessible through the
public interface. -/
theorem private_null_hash_never_granted (hash : String → String) (r : FileRecord)
    (now : Int) (provided : Option String)
    (hpriv : r.is_private = 1) (hhash : r.passcode_hash = none) :
    evaluate hash r now provided ≠ .granted
    ∧ (expiryActive r now = false → provided = none →
        evaluate hash r now provided = .passcodeRequired)
    ∧ (expiryActive r now = false → ∀ p, provided = some p → p ≠ "" →
        evaluate hash r now provided = .passcodeInvalid) := by
  cases hb : expiryActive r now with
  | true => simp [evaluate, hb]
  | false =>
    cases provided with
    | none => simp [evaluate, hb, hpriv, hhash, truthyStr]
    | some p =>
      by_cases hp : p = "" <;>
        simp [evaluate, hb, hpriv, hhash, truthyStr, hp]

/-- Closed instance of `private_null_hash_never_granted` on the concrete
record `recNoPass`. -/
theorem private_null_hash_never_granted_witness :
    evaluate demoHash recNoPass 5 (some "guess") = .passcodeInvalid
    ∧ evaluate demoHash recNoPass 5 none = .passcodeRequired
    ∧ evaluate demoHash recNoPass 5 (some "guess") ≠ .granted :=
  ⟨(private_null_hash_never_granted demoHash recNoPass 5 (some "guess") rfl rfl).2.2
      (by decide) "guess" rfl (by decide),
   (private_null_hash_never_granted demoHash recNoPass 5 none rfl rfl).2.1 (by decide) rfl,
   (private_null_hash_never_granted demoHash recNoPass 5 (some "guess") rfl rfl).1⟩

/-- Supporting store invariant: the upload path never stores the expiry
timestamp `0` — it stores `null` or `now + k*86400000` with `k ≥ 1`, which is
positive whenever the clock is non-negative.  This discharges the
well-formedness hypothesis of the access-gate theorem for every reachable
record. -/
theorem computeExpiryTimestamp_ne_zero (now : Int) (d : Option String) (hnow : 0 ≤ now) :
    computeExpiryTimestamp now d ≠ some 0 := by
  unfold computeExpiryTimestamp
  cases truthyStr d with
  | none => simp
  | some s =>
    cases hp : parseIntJS s with
    | none => simp [hp]
    | some k =>
      simp only [hp]
      by_cases hk : k > 0
      · rw [if_pos hk]
        intro h
        injection h with h
        omega
      · simp [hk]

/-- Helper: a value that is not the empty string passes the JavaScript
truthiness test unchanged. -/
theorem truthyStr_eq_self (provided : Option String) (hp : provided ≠ some "") :
    truthyStr provided = provided := by
  cases provided with
  | none => rfl
  | some s =>
    have hs : s ≠ "" := fun h => hp (by rw [h])
    simp [truthyStr, hs]

/-- C2: on every stored record the retrieval handler's decision equals the
specification's reference decision function, under the two well-formedness
conditions every reachable request satisfies: the stored expiry is not the
timestamp `0` (the upload path only ever stores `null` or `now + k*86400000`
with `k ≥ 1`, while the JavaScript truthiness test would skip an expiry of
`0`), and a supplied passcode is non-empty (the handler treats the empty
string like an absent query parameter). -/
theorem access_gate_matches_spec (hash : String → String) (r : FileRecord) (now : Int)
    (provided : Option String)
    (hexp : r.expiry_timestamp ≠ some 0)
    (hp : provided ≠ some "") :
    evaluate hash r now provided = evaluateRef hash r now provided := by
  unfold evaluate evaluateRef
  rw [truthyStr_eq_self provided hp]
  cases he : r.expiry_timestamp with
  | none => simp [expiryActive, he, beq_eq_false_iff_ne]
  | some t =>
    have ht : t ≠ 0 := fun h => hexp (by rw [he, h])
    by_cases hn : now > t
    · simp [expiryActive, he, ht, hn]
    · simp [expiryActive, he, ht, hn, beq_eq_false_iff_ne]

/-- Closed instance of `access_gate_matches_spec`: the private record
`recPriv` with the correct passcode evaluates to `granted` under both the
handler and the reference function. -/
theorem access_gate_matches_spec_witness :
    evaluate demoHash recPriv 50 (some "pw") = evaluateRef demoHash recPriv 50 (some "pw")
    ∧ evaluate demoHash recPriv 50 (some "pw") = .granted :=
  ⟨access_gate_matches_spec demoHash recPriv 50 (some "pw") (by decide) (by decide),
   by decide⟩

/-- Helper: `verifyToken` written as one case analysis with propositional
equality in place of the boolean comparison. -/
theorem verifyToken_eq_cases (mac : String → String → String)
    (dec : String → Option TokenPayload) (key : String) (now : Int) (token : String) :
    verifyToken mac dec key now token =
      match splitDot token with
      | [h, p, s] =>
        if s = mac key (h ++ "." ++ p) then
          match dec p with
          | some payload => if payload.exp < now then none else some payload
          | none => none
        else none
      | _ => none := by
  unfold verifyToken
  cases splitDot token with
  | nil => rfl
  | cons a t1 =>
    cases t1 with
    | nil => rfl
    | cons b t2 =>
      cases t2 with
      | nil => rfl
      | cons c t3 =>
        cases t3 with
        | nil => simp [beq_iff_eq]
        | cons d t4 => rfl

/-- C3: `verifyToken` returns a payload exactly when the token splits into
three parts whose third part is the MAC of `header.payload` under the service
key, the payload decodes, and its expiry has not passed; consequently a token
whose expiry is earlier than `now` is rejected even with a valid signature,
and a token signed under a key whose MAC differs from the service key's MAC
on the same input is rejected. -/
theorem verifyToken_correct (mac : String → String → String)
    (dec : String → Option TokenPayload) (key : String) (now : Int) :
    (∀ token payload,
        verifyToken mac dec key now token = some payload ↔
          ∃ h p, splitDot token = [h, p, mac key (h ++ "." ++ p)]
            ∧ dec p = some payload ∧ ¬ payload.exp < now)
    ∧ (∀ token h p payload, splitDot token = [h, p, mac key (h ++ "." ++ p)] →
        dec p = some payload → payload.exp < now →
        verifyToken mac dec key now token = none)
    ∧ (∀ token h p s k2, splitDot token = [h, p, s] →
        s = mac k2 (h ++ "." ++ p) → mac k2 (h ++ "." ++ p) ≠ mac key (h ++ "." ++ p) →
        verifyToken mac dec key now token = none) := by
  refine ⟨fun token payload => ?_, fun token h p payload hs hd he => ?_,
          fun token h p s k2 hs hsig hne => ?_⟩
  · rw [verifyToken_eq_cases]
    cases hl : splitDot token with
    | nil => simp
    | cons a t1 =>
      cases t1 with
      | nil => simp
      | cons b t2 =>
        cases t2 with
        | nil => simp
        | cons c t3 =>
          cases t3 with
          | cons d t4 => simp
          | nil =>
            by_cases hc : c = mac key (a ++ "." ++ b)
            · cases hdec : dec b with
              | none => simp [hc, hdec]
              | some pl =>
                by_cases hex : pl.exp < now
                · simp [hc, hdec, hex]
                  rintro rfl
                  exact hex
                · simp [hc, hdec, hex]
                  constructor
                  · rintro rfl
                    exact ⟨a, b, ⟨rfl, rfl, rfl⟩, hdec, not_lt.mp hex⟩
                  · rintro ⟨h1, p1, ⟨rfl, rfl, -⟩, hdec2, -⟩
                    rw [hdec] at hdec2
                    injection hdec2
            · simp [hc]
  · rw [verifyToken_eq_cases, hs]
    simp [hd, he]
  · rw [verifyToken_eq_cases, hs, hsig]
    simp [hne]

/-- Closed instance of `verifyToken_correct`: under the demonstration MAC and
decoder, the well-signed unexpired token `h.p.keyg` verifies to its
payload. -/
theorem verifyToken_correct_witness :
    verifyToken macDemo decodeDemo "key" 5 "h.p.keyg"
      = some { userId := "u", username := "n", role := "admin", exp := 100 } :=
  ((verifyToken_correct macDemo decodeDemo "key" 5).1 "h.p.keyg"
      { userId := "u", username := "n", role := "admin", exp := 100 }).mpr
    ⟨"h", "p", by decide, by decide, by decide⟩

/-- Helper: the download logic after the ad gate never answers with the
interstitial redirect. -/
theorem sSlugAfterAd_ne_adRedirect (hash : String → String) (r2has : String → Bool)
    (store : List FileRecord) (now : Int) (slug : String)
    (providedPasscode : Option String) (o u : String) :
    sSlugAfterAd hash r2has store now slug providedPasscode ≠ .adRedirect o u := by
  unfold sSlugAfterAd
  cases store.find? (fun r => r.short_url_slug == slug) with
  | none => simp
  | some r =>
    by_cases he : expiryActive r now
    · simp [he]
    · by_cases hpm : r.is_private = 1
      · cases truthyStr providedPasscode with
        | none => simp [he, hpm]
        | some p =>
          by_cases hc : (some (hash p) == r.passcode_hash) = false <;>
            by_cases hr2 : r2has ("files/" ++ r.id ++ "-" ++ r.original_filename) <;>
              simp [he, hpm, hc, hr2]
      · by_cases hr2 : r2has ("files/" ++ r.id ++ "-" ++ r.original_filename) <;>
          simp [he, hpm, hr2]

/-- C5: a request whose `ad` query parameter is not `seen` is answered with
the 302 redirect to the interstitial carrying the original request URL, and
this happens before any store or clock access (the response is the same for
every store, clock, hash and object-store state); a request carrying
`ad=seen` is never redirected to the interstitial — it proceeds to registry
lookup and access-gate evaluation. -/
theorem ad_gate_first_hop (hash : String → String) (r2has : String → Bool)
    (store : List FileRecord) (now : Int) (origin reqUrl slug : String)
    (provided adParam : Option String) :
    (adParam ≠ some "seen" →
      sSlugHandler hash r2has store now origin reqUrl slug provided adParam
        = .adRedirect origin reqUrl
      ∧ ∀ (hash2 : String → String) (r2has2 : String → Bool)
          (store2 : List FileRecord) (now2 : Int),
          sSlugHandler hash2 r2has2 store2 now2 origin reqUrl slug provided adParam
            = sSlugHandler hash r2has store now origin reqUrl slug provided adParam)
    ∧ (adParam = some "seen" →
      (∀ o u, sSlugHandler hash r2has store now origin reqUrl slug provided adParam
          ≠ .adRedirect o u)
      ∧ sSlugHandler hash r2has store now origin reqUrl slug provided adParam
          = sSlugAfterAd hash r2has store now slug provided) := by
  constructor
  · intro hne
    have hb : (adParam == some "seen") = false := beq_eq_false_iff_ne.mpr hne
    constructor
    · simp [sSlugHandler, hb]
    · intro hash2 r2has2 store2 now2
      simp [sSlugHandler, hb]
  · rintro rfl
    constructor
    · intro o u
      simpa [sSlugHandler] using
        sSlugAfterAd_ne_adRedirect hash r2has store now slug provided o u
    · simp [sSlugHandler]

/-- Closed instance of `ad_gate_first_hop`: without the marker the handler
redirects to the interstitial with the original URL; with the marker on a
missing slug it goes to the not-found redirect, not the interstitial. -/
theorem ad_gate_first_hop_witness :
    sSlugHandler demoHash (fun _ => true) [] 0 "https://file.myozarniaung.com"
        "https://file.myozarniaung.com/s/zz" "zz" none none
      = .adRedirect "https://file.myozarniaung.com" "https://file.myozarniaung.com/s/zz"
    ∧ sSlugHandler demoHash (fun _ => true) [] 0 "https://file.myozarniaung.com"
        "https://file.myozarniaung.com/s/zz?ad=seen" "zz" none (some "seen")
      ≠ .adRedirect "https://file.myozarniaung.com" "https://file.myozarniaung.com/s/zz?ad=seen" :=
  ⟨((ad_gate_first_hop demoHash (fun _ => true) [] 0 "https://file.myozarniaung.com"
      "https://file.myozarniaung.com/s/zz" "zz" none none).1 (by decide)).1,
   ((ad_gate_first_hop demoHash (fun _ => true) [] 0 "https://file.myozarniaung.com"
      "https://file.myozarniaung.com/s/zz?ad=seen" "zz" none (some "seen")).2 rfl).1
     "https://file.myozarniaung.com" "https://file.myozarniaung.com/s/zz?ad=seen"⟩

/-- C4: evaluation of the handler chain on a private record when the request
carries `ad=seen` but no (or a wrong) passcode.  The claim says the 302 back
to the passcode prompt preserves the `ad=seen` marker; in fact the redirect
`Location` is `/?slug=...&promptDownload=true&message=...` with no `ad`
parameter at all, and the frontend resubmission URL built by `handleDownload`
(`App.jsx`) also lacks the marker, so the resubmitted request goes through
the interstitial again. -/
theorem ad_marker_dropped_at_prompt :
    (sSlugHandler demoHash (fun _ => true) [recPriv] 5 "https://file.myozarniaung.com"
        "https://file.myozarniaung.com/s/abc12345?ad=seen" "abc12345" none (some "seen")
      = .promptRedirect "abc12345"
          "This file is private. Please enter the passcode to download."
     ∧ containsSub "ad=seen"
        (redirectLocation (.promptRedirect "abc12345"
          "This file is private. Please enter the passcode to download.")) = false)
    ∧ (sSlugHandler demoHash (fun _ => true) [recPriv] 5 "https://file.myozarniaung.com"
        "https://file.myozarniaung.com/s/abc12345?passcode=wrong&ad=seen" "abc12345"
        (some "wrong") (some "seen")
      = .promptRedirect "abc12345" "Invalid passcode provided."
     ∧ containsSub "ad=seen"
        (redirectLocation (.promptRedirect "abc12345" "Invalid passcode provided.")) = false)
    ∧ containsSub "ad=seen" (handleDownloadUrl "abc12345" "pw") = false := by
  decide

end FileShare
